import Mathlib

/-!
Verification of the cuOptIQ pipeline contract.

This file shallowly embeds the pure control flow and data transformations of
the cuOptIQAgent pipeline (query analysis → data modification → solver-input
preparation → remote solve → response normalization → orchestration) as Lean
definitions, and proves the spec's claims about them.

External effects (the LLM call, the CSV load, the HTTP exchange) are modelled
as explicit outcome parameters: each is either a success value or an error
string standing for a raised exception, mirroring the Python `try/except`
boundaries. Python dicts that may lack keys are modelled as structures with
`Option` fields; `dict.get(k, d)` becomes `Option.getD`.
-/

/-- Case-sensitive substring containment over character lists, the semantics of
Python's `needle in haystack` for strings. -/
def listContainsSub (needle : List Char) : List Char → Bool
  | [] => needle.isEmpty
  | c :: rest => needle.isPrefixOf (c :: rest) || listContainsSub needle rest

/-- Python's `needle in haystack` substring test. -/
def strContains (haystack needle : String) : Bool :=
  listContainsSub needle.data haystack.data

/-- Python's `str.lower()` (ASCII range, which covers every keyword literal
the fallback scans for). -/
def strToLower (s : String) : String :=
  String.mk (s.data.map Char.toLower)

/-- One transport order row: the nine integer columns of
`transport_order_data.csv` (see the Order schema in the analysis prompt). -/
structure Order where
  pickup_location : Int
  delivery_location : Int
  order_demand : Int
  earliest_pickup : Int
  latest_pickup : Int
  pickup_service_time : Int
  earliest_delivery : Int
  latest_delivery : Int
  delivery_service_time : Int
  deriving Repr, DecidableEq

/-- The `modify_fleet_size` sub-dict of a ChangeRequest (`analyze_query_function.py`). -/
structure SizeChange where
  needed : Bool
  new_size : Option Int
  deriving Repr, DecidableEq

/-- The `modify_capacity` sub-dict of a ChangeRequest. -/
structure CapChange where
  needed : Bool
  new_capacity : Option Int
  deriving Repr, DecidableEq

/-- The `fleet_changes` area of a ChangeRequest; either sub-dict may be absent
in LLM-produced JSON. -/
structure FleetChanges where
  modify_capacity : Option CapChange
  modify_fleet_size : Option SizeChange
  deriving Repr, DecidableEq

/-- A sub-dict of `transport_data_changes` of which the pipeline only ever
reads the `needed` flag (service-time and time-window edits are logged no-ops
in `data_modifier_function.py`). -/
structure NeededFlag where
  needed : Bool
  deriving Repr, DecidableEq

/-- The `remove_orders` sub-dict of a ChangeRequest. -/
structure RemoveOrders where
  needed : Bool
  order_indices : Option (List Nat)
  deriving Repr, DecidableEq

/-- The `transport_data_changes` area of a ChangeRequest. -/
structure TransportDataChanges where
  modify_service_times : Option NeededFlag
  modify_time_windows : Option NeededFlag
  remove_orders : Option RemoveOrders
  deriving Repr, DecidableEq

/-- The `required_analyses` area. Only `visualization_needed` is ever read or
forced by the code; the other flags are never consumed downstream. -/
structure RequiredAnalyses where
  visualization_needed : Bool
  deriving Repr, DecidableEq

/-- A ChangeRequest: the (possibly partial) JSON object produced by the Query
Interpreter. Any area may be absent when it came from raw LLM output. -/
structure Analysis where
  query_type : Option String
  transport_data_changes : Option TransportDataChanges
  fleet_changes : Option FleetChanges
  new_orders : Option (List Order)
  required_analyses : Option RequiredAnalyses
  deriving Repr, DecidableEq

/-- `create_default_analysis(query)` from `analyze_query_function.py`:
the deterministic keyword-scan fallback. Substring checks run on the
lower-cased query, exactly the literals of the source. -/
def create_default_analysis (query : String) : Analysis :=
  let ql := strToLower query
  let fleetSize : SizeChange :=
    if strContains ql "2 forklifts" || strContains ql "two forklifts" then
      { needed := true, new_size := some 2 }
    else if strContains ql "3 forklifts" || strContains ql "three forklifts" then
      { needed := true, new_size := some 3 }
    else
      { needed := false, new_size := none }
  let cap : CapChange :=
    if strContains ql "two items" || strContains ql "2 items" ||
        strContains ql "carry two" then
      { needed := true, new_capacity := some 2 }
    else
      { needed := false, new_capacity := none }
  { query_type := some "route_optimization"
    transport_data_changes := some
      { modify_service_times := some { needed := false }
        modify_time_windows := some { needed := false }
        remove_orders := some { needed := false, order_indices := none } }
    fleet_changes := some { modify_capacity := some cap, modify_fleet_size := some fleetSize }
    new_orders := none
    required_analyses := some { visualization_needed := true } }

/-- Outcome of `json.loads(response.content)` plus the bracket-extraction
retry in `_analyze_fn`: direct parse success, success on the `{...}`
substring, or no parse at all (also covering "no brackets found"). -/
inductive ParseOutcome where
  | parsed (a : Analysis)
  | bracketParsed (a : Analysis)
  | unparsable
  deriving Repr, DecidableEq

/-- Outcome of the external `llm.ainvoke` call: an exception, or a response
whose content then goes through JSON parsing. -/
inductive LLMOutcome where
  | failed
  | ok (p : ParseOutcome)
  deriving Repr, DecidableEq

/-- Lines 148-151 of `analyze_query_function.py`: ensure `required_analyses`
exists and force `visualization_needed` to `True`. -/
def forceVisualization (a : Analysis) : Analysis :=
  { a with required_analyses := some { visualization_needed := true } }

/-- `_analyze_fn` of `analyze_query_function.py` as a function of the query
and the external-call outcome. On the exception path the default analysis is
returned directly (without passing through the forcing lines); on every
non-exception path the parsed (or fallback) analysis has
`visualization_needed` forced to `true`. -/
def analyze_fn (outcome : LLMOutcome) (query : String) : Analysis :=
  match outcome with
  | .failed => create_default_analysis query
  | .ok p =>
    let analysis :=
      match p with
      | .parsed a => a
      | .bracketParsed a => a
      | .unparsable => create_default_analysis query
    forceVisualization analysis

/-- C2: For every input query string, the Query Interpreter's returned
ChangeRequest has `required_analyses.visualization_needed == true` — on the
successful LLM-parse path, on the bracket-extraction path, and on every
fallback/error path alike. -/
theorem analyze_fn_visualization_always_true (outcome : LLMOutcome) (query : String) :
    (analyze_fn outcome query).required_analyses.map RequiredAnalyses.visualization_needed
      = some true := by
  cases outcome with
  | failed => rfl
  | ok p => cases p <;> rfl

/-- C9: For the query "use 2 forklifts", when the language-model call fails so
the deterministic keyword fallback runs, the output has
`fleet_changes.modify_fleet_size = {needed: true, new_size: 2}`. -/
theorem analyze_fn_fallback_two_forklifts :
    (analyze_fn .failed "use 2 forklifts").fleet_changes.map FleetChanges.modify_fleet_size
      = some (some { needed := true, new_size := some 2 }) := by
  decide

/-- The built-in 9-row default dataset of `data_modifier_function.py`
(used when `transport_order_data.csv` is not found). -/
def defaultTransportData : List Order :=
  [⟨1, 5, 1, 0, 10, 2, 0, 55, 2⟩,
   ⟨1, 5, 1, 0, 20, 2, 0, 55, 2⟩,
   ⟨3, 5, 1, 0, 30, 2, 0, 55, 2⟩,
   ⟨2, 6, 1, 0, 10, 2, 0, 55, 2⟩,
   ⟨3, 7, 1, 0, 20, 2, 0, 55, 2⟩,
   ⟨4, 7, 1, 0, 30, 2, 0, 55, 2⟩,
   ⟨1, 8, 1, 0, 10, 2, 0, 55, 2⟩,
   ⟨2, 8, 1, 0, 20, 2, 0, 55, 2⟩,
   ⟨2, 8, 1, 0, 30, 2, 0, 55, 2⟩]

/-- `modified_data.drop(order_indices).reset_index(drop=True)`: remove the
rows whose positional label is listed, keeping relative order. (On a freshly
loaded frame the labels are the positions 0..N-1.) -/
def dropIndices (rows : List Order) (idxs : List Nat) : List Order :=
  (rows.enum.filter (fun p => ¬ idxs.contains p.1)).map Prod.snd

/-- The dict returned by the Data Modifier and fed unchanged to the Problem
Builder: on success the `transport_data` / `fleet_changes` / `query_type`
keys are present, on failure only `error` is. -/
structure ModOutput where
  transport_data : Option (List Order)
  fleet_changes : Option FleetChanges
  query_type : Option String
  error : Option String
  deriving Repr, DecidableEq

/-- The `if remove_orders and remove_orders.get("needed", False)` guard of
`_modify_data_fn` (an absent or empty `remove_orders` dict is falsy). -/
def removeNeededFlag (a : Analysis) : Bool :=
  match (a.transport_data_changes.getD ⟨none, none, none⟩).remove_orders with
  | some ro => ro.needed
  | none => false

/-- `_modify_data_fn` of `data_modifier_function.py` as a function of the
ChangeRequest and of the load outcome (`Except.error e` models an exception
raised while locating/reading the CSV; `Except.ok rows` the loaded rows, the
built-in default included). Service-time and time-window edits are logged
no-ops in the source, so they do not appear in the result. -/
def modify_data_fn (a : Analysis) (load : Except String (List Order)) : ModOutput :=
  match load with
  | .error e =>
    { transport_data := none, fleet_changes := none, query_type := none,
      error := some ("Data modification failed: " ++ e) }
  | .ok rows =>
    let tdc := a.transport_data_changes.getD ⟨none, none, none⟩
    let new_orders := (a.new_orders.getD [])
    let afterRemove :=
      if removeNeededFlag a then
        let idxs := (tdc.remove_orders.bind RemoveOrders.order_indices).getD []
        if idxs.isEmpty then rows else dropIndices rows idxs
      else rows
    let afterAdd := if new_orders.isEmpty then afterRemove else afterRemove ++ new_orders
    { transport_data := some afterAdd
      fleet_changes := some (a.fleet_changes.getD ⟨none, none⟩)
      query_type := some (a.query_type.getD "route_optimization")
      error := none }

/-- C7: for every ChangeRequest with `remove_orders.needed == false` (or the
whole sub-dict absent) and an empty or absent `new_orders` list, the Data
Modifier's output order set has exactly as many rows as the loaded input
order set. -/
theorem modify_data_fn_noop_preserves_count (a : Analysis) (rows : List Order)
    (hrem : removeNeededFlag a = false)
    (hnew : a.new_orders.getD [] = []) :
    ∃ out, (modify_data_fn a (.ok rows)).transport_data = some out ∧
      out.length = rows.length := by
  refine ⟨rows, ?_, rfl⟩
  simp [modify_data_fn, hrem, hnew]

/-- Witness for C7 at a concrete ChangeRequest and the default dataset. -/
theorem modify_data_fn_noop_preserves_count_witness :
    ∃ out, (modify_data_fn (create_default_analysis "optimize")
        (.ok defaultTransportData)).transport_data = some out ∧
      out.length = defaultTransportData.length :=
  modify_data_fn_noop_preserves_count (create_default_analysis "optimize")
    defaultTransportData (by decide) (by decide)

/-- The fixed waypoint connectivity graph of `cuopt_preparation_function.py`
(`Config.WAYPOINT_GRAPH`). -/
structure WaypointGraph where
  edges : List Nat
  offsets : List Nat
  weights : List Nat
  deriving Repr, DecidableEq

/-- The hand-authored 9-node waypoint graph constant. -/
def waypointGraph : WaypointGraph :=
  { edges := [1, 2, 3, 4, 5, 6, 7, 8, 0, 5, 6, 7, 8, 0, 5, 6, 7, 8, 0, 5, 6, 7, 8, 0,
              5, 6, 7, 8, 0, 1, 2, 3, 4, 0, 1, 2, 3, 4, 0, 1, 2, 3, 4, 0, 1, 2, 3, 4]
    offsets := [0, 8, 13, 18, 23, 28, 33, 38, 43, 48]
    weights := [1, 2, 3, 4, 1, 2, 3, 4, 1, 2, 3, 3, 4, 2, 3, 4, 4, 5, 3, 5, 4, 4, 4, 4,
                5, 4, 3, 3, 1, 2, 3, 5, 5, 2, 3, 4, 4, 4, 3, 3, 4, 4, 3, 4, 4, 5, 4, 3] }

/-- `task_locations` built by the row loop of `_prepare_fn`: pickup location
then delivery location, per order in order. -/
def taskLocationsOf : List Order → List Int
  | [] => []
  | o :: rest => o.pickup_location :: o.delivery_location :: taskLocationsOf rest

/-- `demand` built by the row loop: +demand at the pickup slot, the negated
demand at the delivery slot. -/
def demandOf : List Order → List Int
  | [] => []
  | o :: rest => o.order_demand :: (-o.order_demand) :: demandOf rest

/-- `task_time_windows` built by the row loop. -/
def taskTimeWindowsOf : List Order → List (Int × Int)
  | [] => []
  | o :: rest =>
    (o.earliest_pickup, o.latest_pickup) :: (o.earliest_delivery, o.latest_delivery)
      :: taskTimeWindowsOf rest

/-- `service_times` built by the row loop. -/
def serviceTimesOf : List Order → List Int
  | [] => []
  | o :: rest => o.pickup_service_time :: o.delivery_service_time :: serviceTimesOf rest

/-- `pickup_and_delivery_pairs` built by the row loop: `[2*idx, 2*idx+1]`
for the row at index `idx` (the builder is called with `idx = 0`). -/
def pairsOf : List Order → Nat → List (Nat × Nat)
  | [], _ => []
  | _ :: rest, idx => (2 * idx, 2 * idx + 1) :: pairsOf rest (idx + 1)

/-- The solver payload dict (`cuopt_input`) assembled at lines 124-145 of
`cuopt_preparation_function.py`. `demand` and `capacities` keep the source's
one-element outer nesting. -/
structure CuoptInput where
  cost_waypoint_graph : WaypointGraph
  task_locations : List Int
  demand : List (List Int)
  task_time_windows : List (Int × Int)
  service_times : List Int
  pickup_and_delivery_pairs : List (Nat × Nat)
  vehicle_locations : List (Int × Int)
  capacities : List (List Int)
  vehicle_time_windows : List (Int × Int)
  time_limit : Int
  deriving Repr, DecidableEq

/-- A dict flowing into the Solver Gateway: it may carry an `error` key
(from a failed earlier stage) or an actual payload. -/
structure SolverDict where
  error : Option String
  data : Option CuoptInput
  deriving Repr, DecidableEq

/-- Resolution of `num_forklifts`: default 4, overridden wholesale by
`modify_fleet_size.new_size` when `needed` is truthy; a missing `new_size`
key raises `KeyError('new_size')`. -/
def fleetSizeOf (fc : FleetChanges) : Except String Int :=
  match fc.modify_fleet_size with
  | some s =>
    if s.needed then
      match s.new_size with
      | some n => .ok n
      | none => .error "'new_size'"
    else .ok 4
  | none => .ok 4

/-- Resolution of `forklift_capacity`: default 1, overridden wholesale by
`modify_capacity.new_capacity` when `needed` is truthy. -/
def capacityOf (fc : FleetChanges) : Except String Int :=
  match fc.modify_capacity with
  | some c =>
    if c.needed then
      match c.new_capacity with
      | some n => .ok n
      | none => .error "'new_capacity'"
    else .ok 1
  | none => .ok 1

/-- `_prepare_fn` of `cuopt_preparation_function.py`. Input is the Data
Modifier's output dict; the result dict carries either the built payload or
an `error` key (every raised exception is caught and wrapped with the
`cuOpt preparation failed: ` message at lines 150-153). Row fields are
already integers in the model, so the per-row coercion guard cannot fire. -/
def prepare_fn (input : ModOutput) : SolverDict :=
  match input.transport_data with
  | none => { error := some "cuOpt preparation failed: Transport data is missing or empty", data := none }
  | some rows =>
    if rows.isEmpty then
      { error := some "cuOpt preparation failed: Transport data is missing or empty", data := none }
    else
      let fc := input.fleet_changes.getD ⟨none, none⟩
      match fleetSizeOf fc with
      | .error e => { error := some ("cuOpt preparation failed: " ++ e), data := none }
      | .ok nf =>
        match capacityOf fc with
        | .error e => { error := some ("cuOpt preparation failed: " ++ e), data := none }
        | .ok cap =>
          { error := none
            data := some
              { cost_waypoint_graph := waypointGraph
                task_locations := taskLocationsOf rows
                demand := [demandOf rows]
                task_time_windows := taskTimeWindowsOf rows
                service_times := serviceTimesOf rows
                pickup_and_delivery_pairs := pairsOf rows 0
                vehicle_locations := List.replicate nf.toNat (0, 0)
                capacities := [List.replicate nf.toNat cap]
                vehicle_time_windows := List.replicate nf.toNat (0, 100)
                time_limit := 5 } }

theorem taskLocationsOf_length (l : List Order) :
    (taskLocationsOf l).length = 2 * l.length := by
  induction l with
  | nil => rfl
  | cons o rest ih => simp only [taskLocationsOf, List.length_cons, ih]; omega

theorem demandOf_length (l : List Order) :
    (demandOf l).length = 2 * l.length := by
  induction l with
  | nil => rfl
  | cons o rest ih => simp only [demandOf, List.length_cons, ih]; omega

theorem pairsOf_length (l : List Order) (k : Nat) :
    (pairsOf l k).length = l.length := by
  induction l generalizing k with
  | nil => rfl
  | cons o rest ih => simp only [pairsOf, List.length_cons, ih]

theorem pairsOf_getElem (l : List Order) :
    ∀ (k i : Nat), i < l.length →
      (pairsOf l k)[i]? = some (2 * (k + i), 2 * (k + i) + 1) := by
  induction l with
  | nil => intro k i h; simp at h
  | cons o rest ih =>
    intro k i h
    cases i with
    | zero => simp [pairsOf]
    | succ j =>
      have hj : j < rest.length := Nat.lt_of_succ_lt_succ h
      have hrec := ih (k + 1) j hj
      have hidx : k + (j + 1) = (k + 1) + j := by omega
      simp only [pairsOf, List.getElem?_cons_succ, hrec, hidx]

theorem demandOf_getElem (l : List Order) :
    ∀ (i : Nat) (h : i < l.length),
      (demandOf l)[2 * i]? = some (l[i].order_demand) ∧
      (demandOf l)[2 * i + 1]? = some (-(l[i].order_demand)) := by
  induction l with
  | nil => intro i h; simp at h
  | cons o rest ih =>
    intro i h
    cases i with
    | zero => simp [demandOf]
    | succ j =>
      have hj : j < rest.length := Nat.lt_of_succ_lt_succ h
      have hrec := ih j hj
      have h2 : 2 * (j + 1) = 2 * j + 1 + 1 := by omega
      rw [h2]
      simp only [demandOf, List.getElem?_cons_succ, List.getElem_cons_succ]
      exact hrec

theorem taskLocationsOf_getElem (l : List Order) :
    ∀ (i : Nat) (h : i < l.length),
      (taskLocationsOf l)[2 * i]? = some (l[i].pickup_location) ∧
      (taskLocationsOf l)[2 * i + 1]? = some (l[i].delivery_location) := by
  induction l with
  | nil => intro i h; simp at h
  | cons o rest ih =>
    intro i h
    cases i with
    | zero => simp [taskLocationsOf]
    | succ j =>
      have hj : j < rest.length := Nat.lt_of_succ_lt_succ h
      have hrec := ih j hj
      have h2 : 2 * (j + 1) = 2 * j + 1 + 1 := by omega
      rw [h2]
      simp only [taskLocationsOf, List.getElem?_cons_succ, List.getElem_cons_succ]
      exact hrec

/-- C1: for every order set of size N given to the Problem Builder (all nine
fields integer-coercible, which the model's `Int` fields make automatic), the
built SolverProblem has exactly 2N entries in `task_locations` (pickup then
delivery interleaved per order), exactly N entries in
`pickup_and_delivery_pairs` with `pickup_and_delivery_pairs[i] = [2i, 2i+1]`,
and for each order i the demand at position 2i is the negation of the demand
at position 2i+1. -/
theorem prepare_fn_task_data_invariants (input : ModOutput) (rows : List Order)
    (htd : input.transport_data = some rows) (hne : rows ≠ [])
    (nf cap : Int)
    (hnf : fleetSizeOf (input.fleet_changes.getD ⟨none, none⟩) = .ok nf)
    (hcap : capacityOf (input.fleet_changes.getD ⟨none, none⟩) = .ok cap) :
    ∃ ci, prepare_fn input = { error := none, data := some ci } ∧
      ci.task_locations.length = 2 * rows.length ∧
      ci.pickup_and_delivery_pairs.length = rows.length ∧
      (∀ i, i < rows.length →
        ci.pickup_and_delivery_pairs[i]? = some (2 * i, 2 * i + 1)) ∧
      (∃ d, ci.demand = [d] ∧ ∀ (i : Nat) (h : i < rows.length),
        d[2 * i]? = some (rows[i].order_demand) ∧
        d[2 * i + 1]? = some (-(rows[i].order_demand))) ∧
      (∀ (i : Nat) (h : i < rows.length),
        ci.task_locations[2 * i]? = some (rows[i].pickup_location) ∧
        ci.task_locations[2 * i + 1]? = some (rows[i].delivery_location)) := by
  have hempty : rows.isEmpty = false := by
    cases rows with
    | nil => exact absurd rfl hne
    | cons a t => rfl
  refine ⟨{ cost_waypoint_graph := waypointGraph
            task_locations := taskLocationsOf rows
            demand := [demandOf rows]
            task_time_windows := taskTimeWindowsOf rows
            service_times := serviceTimesOf rows
            pickup_and_delivery_pairs := pairsOf rows 0
            vehicle_locations := List.replicate nf.toNat (0, 0)
            capacities := [List.replicate nf.toNat cap]
            vehicle_time_windows := List.replicate nf.toNat (0, 100)
            time_limit := 5 }, ?_, ?_, ?_, ?_, ?_, ?_⟩
  · simp only [prepare_fn, htd, hempty, Bool.false_eq_true, if_false, hnf, hcap]
  · exact taskLocationsOf_length rows
  · exact pairsOf_length rows 0
  · intro i hi
    have := pairsOf_getElem rows 0 i hi
    simpa using this
  · exact ⟨demandOf rows, rfl, demandOf_getElem rows⟩
  · exact taskLocationsOf_getElem rows

/-- Witness for C1: the default dataset with no fleet changes. -/
theorem prepare_fn_task_data_invariants_witness :
    ∃ ci, prepare_fn
        { transport_data := some defaultTransportData,
          fleet_changes := none, query_type := none, error := none }
        = { error := none, data := some ci } ∧
      ci.task_locations.length = 2 * defaultTransportData.length ∧
      ci.pickup_and_delivery_pairs.length = defaultTransportData.length ∧
      (∀ i, i < defaultTransportData.length →
        ci.pickup_and_delivery_pairs[i]? = some (2 * i, 2 * i + 1)) ∧
      (∃ d, ci.demand = [d] ∧ ∀ (i : Nat) (h : i < defaultTransportData.length),
        d[2 * i]? = some (defaultTransportData[i].order_demand) ∧
        d[2 * i + 1]? = some (-(defaultTransportData[i].order_demand))) ∧
      (∀ (i : Nat) (h : i < defaultTransportData.length),
        ci.task_locations[2 * i]? = some (defaultTransportData[i].pickup_location) ∧
        ci.task_locations[2 * i + 1]? = some (defaultTransportData[i].delivery_location)) :=
  prepare_fn_task_data_invariants
    { transport_data := some defaultTransportData,
      fleet_changes := none, query_type := none, error := none }
    defaultTransportData rfl (by decide) 4 1 rfl rfl

/-- The `fleet_changes.get("modify_fleet_size", {}).get("needed")` truthiness
test of `_prepare_fn`. -/
def sizeNeeded (fc : FleetChanges) : Bool :=
  match fc.modify_fleet_size with
  | some s => s.needed
  | none => false

/-- The `fleet_changes.get("modify_capacity", {}).get("needed")` truthiness
test of `_prepare_fn`. -/
def capNeeded (fc : FleetChanges) : Bool :=
  match fc.modify_capacity with
  | some c => c.needed
  | none => false

theorem fleetSizeOf_not_needed (fc : FleetChanges) (nf : Int)
    (h : fleetSizeOf fc = .ok nf) (hn : sizeNeeded fc = false) : nf = 4 := by
  cases hm : fc.modify_fleet_size with
  | none => simp [fleetSizeOf, hm] at h; omega
  | some s =>
    have hn2 : s.needed = false := by simpa [sizeNeeded, hm] using hn
    simp [fleetSizeOf, hm, hn2] at h
    omega

theorem fleetSizeOf_needed (fc : FleetChanges) (nf : Int)
    (h : fleetSizeOf fc = .ok nf) (hn : sizeNeeded fc = true) :
    fc.modify_fleet_size.bind SizeChange.new_size = some nf := by
  cases hm : fc.modify_fleet_size with
  | none => simp [sizeNeeded, hm] at hn
  | some s =>
    have hn2 : s.needed = true := by simpa [sizeNeeded, hm] using hn
    cases hs : s.new_size with
    | none => simp [fleetSizeOf, hm, hn2, hs] at h
    | some n =>
      simp [fleetSizeOf, hm, hn2, hs] at h
      simp [hs]
      omega

theorem capacityOf_not_needed (fc : FleetChanges) (cap : Int)
    (h : capacityOf fc = .ok cap) (hn : capNeeded fc = false) : cap = 1 := by
  cases hm : fc.modify_capacity with
  | none => simp [capacityOf, hm] at h; omega
  | some c =>
    have hn2 : c.needed = false := by simpa [capNeeded, hm] using hn
    simp [capacityOf, hm, hn2] at h
    omega

theorem capacityOf_needed (fc : FleetChanges) (cap : Int)
    (h : capacityOf fc = .ok cap) (hn : capNeeded fc = true) :
    fc.modify_capacity.bind CapChange.new_capacity = some cap := by
  cases hm : fc.modify_capacity with
  | none => simp [capNeeded, hm] at hn
  | some c =>
    have hn2 : c.needed = true := by simpa [capNeeded, hm] using hn
    cases hs : c.new_capacity with
    | none => simp [capacityOf, hm, hn2, hs] at h
    | some n =>
      simp [capacityOf, hm, hn2, hs] at h
      simp [hs]
      omega

/-- C8: for every Problem Builder input with a nonempty order set, the fleet
has exactly 4 vehicles when `modify_fleet_size.needed` is not true and each
vehicle's capacity is 1 when `modify_capacity.needed` is not true; when the
respective flag is true the given `new_size` / `new_capacity` replaces the
default wholesale; in every case all vehicles sit at the depot `[0, 0]`,
every vehicle's time window is `[0, 100]`, and `solver_config.time_limit`
is 5. -/
theorem prepare_fn_fleet_invariants (input : ModOutput) (rows : List Order)
    (htd : input.transport_data = some rows) (hne : rows ≠ [])
    (nf cap : Int)
    (hnf : fleetSizeOf (input.fleet_changes.getD ⟨none, none⟩) = .ok nf)
    (hcap : capacityOf (input.fleet_changes.getD ⟨none, none⟩) = .ok cap) :
    ∃ ci, prepare_fn input = { error := none, data := some ci } ∧
      ci.vehicle_locations = List.replicate nf.toNat (0, 0) ∧
      ci.vehicle_time_windows = List.replicate nf.toNat (0, 100) ∧
      ci.capacities = [List.replicate nf.toNat cap] ∧
      ci.time_limit = 5 ∧
      (sizeNeeded (input.fleet_changes.getD ⟨none, none⟩) = false → nf = 4) ∧
      (capNeeded (input.fleet_changes.getD ⟨none, none⟩) = false → cap = 1) ∧
      (sizeNeeded (input.fleet_changes.getD ⟨none, none⟩) = true →
        (input.fleet_changes.getD ⟨none, none⟩).modify_fleet_size.bind
          SizeChange.new_size = some nf) ∧
      (capNeeded (input.fleet_changes.getD ⟨none, none⟩) = true →
        (input.fleet_changes.getD ⟨none, none⟩).modify_capacity.bind
          CapChange.new_capacity = some cap) := by
  have hempty : rows.isEmpty = false := by
    cases rows with
    | nil => exact absurd rfl hne
    | cons a t => rfl
  refine ⟨{ cost_waypoint_graph := waypointGraph
            task_locations := taskLocationsOf rows
            demand := [demandOf rows]
            task_time_windows := taskTimeWindowsOf rows
            service_times := serviceTimesOf rows
            pickup_and_delivery_pairs := pairsOf rows 0
            vehicle_locations := List.replicate nf.toNat (0, 0)
            capacities := [List.replicate nf.toNat cap]
            vehicle_time_windows := List.replicate nf.toNat (0, 100)
            time_limit := 5 }, ?_, rfl, rfl, rfl, rfl, ?_, ?_, ?_, ?_⟩
  · simp only [prepare_fn, htd, hempty, Bool.false_eq_true, if_false, hnf, hcap]
  · exact fun h => fleetSizeOf_not_needed _ nf hnf h
  · exact fun h => capacityOf_not_needed _ cap hcap h
  · exact fun h => fleetSizeOf_needed _ nf hnf h
  · exact fun h => capacityOf_needed _ cap hcap h

/-- Concrete Problem Builder input used to witness C8: fleet size overridden
to 2, capacity left at its default. -/
def fleetWitnessInput : ModOutput :=
  { transport_data := some defaultTransportData
    fleet_changes := some
      { modify_capacity := some { needed := false, new_capacity := none }
        modify_fleet_size := some { needed := true, new_size := some 2 } }
    query_type := none
    error := none }

/-- Witness for C8 at `fleetWitnessInput`. -/
theorem prepare_fn_fleet_invariants_witness :
    ∃ ci, prepare_fn fleetWitnessInput = { error := none, data := some ci } ∧
      ci.vehicle_locations = List.replicate (Int.toNat 2) (0, 0) ∧
      ci.vehicle_time_windows = List.replicate (Int.toNat 2) (0, 100) ∧
      ci.capacities = [List.replicate (Int.toNat 2) 1] ∧
      ci.time_limit = 5 ∧
      (sizeNeeded (fleetWitnessInput.fleet_changes.getD ⟨none, none⟩) = false →
        (2 : Int) = 4) ∧
      (capNeeded (fleetWitnessInput.fleet_changes.getD ⟨none, none⟩) = false →
        (1 : Int) = 1) ∧
      (sizeNeeded (fleetWitnessInput.fleet_changes.getD ⟨none, none⟩) = true →
        (fleetWitnessInput.fleet_changes.getD ⟨none, none⟩).modify_fleet_size.bind
          SizeChange.new_size = some 2) ∧
      (capNeeded (fleetWitnessInput.fleet_changes.getD ⟨none, none⟩) = true →
        (fleetWitnessInput.fleet_changes.getD ⟨none, none⟩).modify_capacity.bind
          CapChange.new_capacity = some 1) :=
  prepare_fn_fleet_invariants fleetWitnessInput defaultTransportData rfl
    (by decide) 2 1 rfl rfl

/-- The `readable_map` literal of `_solve_fn` (`cuopt_solver_function.py`,
lines 112-122); indexing it with any other location id raises `KeyError`. -/
def readableMap : Nat → Option String
  | 0 => some ": Forklift"
  | 1 => some ": Insulation"
  | 2 => some ": Weather Stripping"
  | 3 => some ": Fiber Glass"
  | 4 => some ": Shingles"
  | 5 => some ": Truck 1"
  | 6 => some ": Truck 2"
  | 7 => some ": Truck 3"
  | 8 => some ": Truck 4"
  | _ => none

/-- One vehicle's raw entry in the solver response (`route`/`type` are the
parallel sequences, `arrival_stamp` optional). -/
structure VehicleData where
  route : List Nat
  type : List String
  arrival_stamp : Option (List Int)
  deriving Repr, DecidableEq

/-- The per-vehicle loop of `_solve_fn` (lines 129-136): walk the route with a
counter, and for every position whose same-index activity tag exists and is
not `w`, emit `f"{type}{readable_map[loc]}"`. An unknown location at an
emitting position raises `KeyError(loc)`, modelled as `.error loc`. -/
def convertLoop (tyAll : List String) : List Nat → Nat → Except Nat (List String)
  | [], _ => .ok []
  | loc :: rest, count =>
    match tyAll[count]? with
    | some t =>
      if t != "w" then
        match readableMap loc with
        | none => .error loc
        | some name =>
          match convertLoop tyAll rest (count + 1) with
          | .error l => .error l
          | .ok r => .ok ((t ++ name) :: r)
      else convertLoop tyAll rest (count + 1)
    | none => convertLoop tyAll rest (count + 1)

/-- Readable-route conversion for one vehicle (counter starts at 0). -/
def convertVehicle (v : VehicleData) : Except Nat (List String) :=
  convertLoop v.type v.route 0

/-- The `converted_route` dict built over all vehicles, in iteration order
(Python dict keys are unique, so each vehicle starts from a fresh list). -/
def buildReadable : List (String × VehicleData) → Except Nat (List (String × List String))
  | [] => .ok []
  | (name, v) :: rest =>
    match convertVehicle v with
    | .error l => .error l
    | .ok r =>
      match buildReadable rest with
      | .error l => .error l
      | .ok rs => .ok ((name, r) :: rs)

/-- The `solver_response` object expected inside the remote reply. -/
structure SolverResponse where
  status : Option Int
  solution_cost : Option Int
  vehicle_data : Option (List (String × VehicleData))
  deriving Repr, DecidableEq

/-- The `response` wrapper level of the remote reply. -/
structure ResponseWrapper where
  solver_response : Option SolverResponse
  deriving Repr, DecidableEq

/-- The whole JSON body of a terminal (non-202) remote reply. -/
structure CuoptResponseBody where
  response : Option ResponseWrapper
  deriving Repr, DecidableEq

/-- The `processed_solution` dict of `_solve_fn` (lines 139-144): the
SolutionRecord. -/
structure Solution where
  status : Option Int
  solution_cost : Option Int
  vehicle_data : List (String × VehicleData)
  readable_routes : List (String × List String)
  deriving Repr, DecidableEq

/-- Terminal outcome of the POST + 202-polling exchange: an HTTP/network
exception (including `raise_for_status`), or a parsed JSON body. -/
inductive HttpOutcome where
  | httpError (msg : String)
  | ok (body : CuoptResponseBody)
  deriving Repr, DecidableEq

/-- A dict handed to the Solver Gateway: the payload may sit under a
`cuopt_input` key, otherwise the dict itself is the payload
(lines 66-68 of `cuopt_solver_function.py`). -/
structure SolverInput where
  cuopt_input : Option SolverDict
  base : SolverDict
  deriving Repr, DecidableEq

/-- The `cuopt_input` extraction of `_solve_fn`. -/
def effectiveInput (i : SolverInput) : SolverDict :=
  i.cuopt_input.getD i.base

/-- Result of the pre-HTTP phase of `_solve_fn`: an early `{error}` return
(missing API key, or an upstream `error` key passed through), or a decision
to POST the wrapped payload. -/
inductive SolvePre where
  | preError (msg : String)
  | request (payload : Option CuoptInput)
  deriving Repr, DecidableEq

/-- Lines 56-93 of `cuopt_solver_function.py`: resolve the API key (config
first, then the `CUOPT_API_KEY` environment variable, empty string meaning
absent), raise on a missing key (caught and wrapped by the outer handler),
then pass an upstream `error` key through unchanged, else proceed to the
HTTP POST. -/
def solvePre (cfgKey envKey : String) (input : SolverInput) : SolvePre :=
  let apiKey := if cfgKey = "" then envKey else cfgKey
  if apiKey = "" then
    .preError "Error in CuOpt solver: No API key provided for NVIDIA CuOpt"
  else
    let ci := effectiveInput input
    match ci.error with
    | some m => .preError m
    | none => .request ci.data

/-- Result of the whole Solver Gateway call. -/
inductive SolveResult where
  | success (s : Solution) (raw : CuoptResponseBody)
  | failure (msg : String)
  deriving Repr, DecidableEq

/-- Lines 104-153 of `_solve_fn`: handle the terminal HTTP outcome — wrap
exceptions, reject a body without the `response.solver_response` nesting,
and otherwise normalize into the SolutionRecord plus the raw body. -/
def handleHttp (outcome : HttpOutcome) : SolveResult :=
  match outcome with
  | .httpError e => .failure ("Error in CuOpt solver: " ++ e)
  | .ok body =>
    match body.response with
    | none => .failure "Invalid response format from CuOpt API"
    | some w =>
      match w.solver_response with
      | none => .failure "Invalid response format from CuOpt API"
      | some sr =>
        match buildReadable (sr.vehicle_data.getD []) with
        | .error loc => .failure ("Error in CuOpt solver: " ++ toString loc)
        | .ok rr =>
          .success
            { status := sr.status
              solution_cost := sr.solution_cost
              vehicle_data := sr.vehicle_data.getD []
              readable_routes := rr }
            body

/-- `_solve_fn` assembled from its pre-HTTP phase and its response handling. -/
def solve_fn (cfgKey envKey : String) (input : SolverInput) (http : HttpOutcome) :
    SolveResult :=
  match solvePre cfgKey envKey input with
  | .preError m => .failure m
  | .request _ => handleHttp http

theorem convertLoop_length (ty : List String) :
    ∀ (route : List Nat) (c : Nat) (r : List String),
      route.length + c = ty.length →
      convertLoop ty route c = .ok r →
      r.length = ((ty.drop c).filter (fun t => t != "w")).length := by
  intro route
  induction route with
  | nil =>
    intro c r hlen h
    have hc : c = ty.length := by simpa using hlen
    subst hc
    simp only [convertLoop] at h
    obtain rfl : ([] : List String) = r := by simpa using h
    simp [List.drop_length]
  | cons loc rest ih =>
    intro c r hlen h
    have hc : c < ty.length := by simp only [List.length_cons] at hlen; omega
    have hget : ty[c]? = some ty[c] := List.getElem?_eq_getElem hc
    have hdrop : ty.drop c = ty[c] :: ty.drop (c + 1) := List.drop_eq_getElem_cons hc
    have hlen2 : rest.length + (c + 1) = ty.length := by
      simp only [List.length_cons] at hlen; omega
    simp only [convertLoop, hget] at h
    by_cases hw : ty[c] != "w"
    · rw [if_pos hw] at h
      cases hm : readableMap loc with
      | none => rw [hm] at h; simp at h
      | some nm =>
        rw [hm] at h
        cases hr : convertLoop ty rest (c + 1) with
        | error l => rw [hr] at h; simp at h
        | ok r0 =>
          rw [hr] at h
          obtain rfl : (ty[c] ++ nm) :: r0 = r := by simpa using h
          rw [hdrop, List.filter_cons, if_pos hw]
          simp only [List.length_cons]
          rw [ih (c + 1) r0 hlen2 hr]
    · rw [if_neg hw] at h
      rw [hdrop, List.filter_cons, if_neg hw]
      exact ih (c + 1) r hlen2 h

theorem buildReadable_mem (vd : List (String × VehicleData)) :
    ∀ (rr : List (String × List String)), buildReadable vd = .ok rr →
      ∀ (v : String) (d : VehicleData), (v, d) ∈ vd →
        d.route.length = d.type.length →
        ∃ r, (v, r) ∈ rr ∧ r.length = (d.type.filter (fun t => t != "w")).length := by
  induction vd with
  | nil => intro rr h v d hmem; simp at hmem
  | cons p rest ih =>
    obtain ⟨name, dv⟩ := p
    intro rr h v d hmem hlen
    simp only [buildReadable] at h
    cases hcv : convertVehicle dv with
    | error l => rw [hcv] at h; simp at h
    | ok r0 =>
      rw [hcv] at h
      cases hbr : buildReadable rest with
      | error l => rw [hbr] at h; simp at h
      | ok rs =>
        rw [hbr] at h
        obtain rfl : (name, r0) :: rs = rr := by simpa using h
        rcases List.mem_cons.mp hmem with heq | hmem2
        · obtain ⟨hv, hd⟩ := Prod.mk.injEq _ _ _ _ ▸ heq
          subst hv hd
          refine ⟨r0, List.mem_cons_self _ _, ?_⟩
          have hstep := convertLoop_length d.type d.route 0 r0 (by omega) hcv
          simpa using hstep
        · obtain ⟨r, hmem3, hl⟩ := ih rs hbr v d hmem2 hlen
          exact ⟨r, List.mem_cons_of_mem _ hmem3, hl⟩

/-- C3: for every SolutionRecord produced by the Solver Gateway from a
response in which vehicle `v`'s route and type lists have equal length,
`readable_routes[v]` has length equal to the number of non-wait entries in
`vehicle_data[v].type` — wait steps are skipped and every other step emits
exactly one readable entry. -/
theorem solve_readable_roundtrip (http : HttpOutcome) (s : Solution)
    (raw : CuoptResponseBody) (h : handleHttp http = .success s raw)
    (v : String) (d : VehicleData) (hmem : (v, d) ∈ s.vehicle_data)
    (hlen : d.route.length = d.type.length) :
    ∃ r, (v, r) ∈ s.readable_routes ∧
      r.length = (d.type.filter (fun t => t != "w")).length := by
  cases http with
  | httpError e => simp [handleHttp] at h
  | ok body =>
    cases hresp : body.response with
    | none => simp [handleHttp, hresp] at h
    | some w =>
      cases hsr : w.solver_response with
      | none => simp [handleHttp, hresp, hsr] at h
      | some sr =>
        cases hbr : buildReadable (sr.vehicle_data.getD []) with
        | error l => simp [handleHttp, hresp, hsr, hbr] at h
        | ok rr =>
          simp only [handleHttp, hresp, hsr, hbr] at h
          obtain ⟨hs, hraw⟩ := SolveResult.success.inj h
          subst hs
          exact buildReadable_mem _ rr hbr v d hmem hlen

/-- A concrete one-vehicle response used to witness C3. -/
def rtVehicle : VehicleData :=
  { route := [0, 1, 5, 0], type := ["Depot", "Pickup", "Delivery", "w"],
    arrival_stamp := none }

/-- The `solver_response` object of the concrete reply used to witness C3. -/
def rtSolverResponse : SolverResponse :=
  { status := some 0, solution_cost := some 8,
    vehicle_data := some [("0", rtVehicle)] }

/-- A concrete remote reply body used to witness C3. -/
def rtBody : CuoptResponseBody :=
  { response := some { solver_response := some rtSolverResponse } }

/-- The SolutionRecord the gateway produces from `rtBody`. -/
def rtSolution : Solution :=
  { status := some 0, solution_cost := some 8,
    vehicle_data := [("0", rtVehicle)],
    readable_routes :=
      [("0", ["Depot: Forklift", "Pickup: Insulation", "Delivery: Truck 1"])] }

/-- Witness for C3 at the concrete reply `rtBody`. -/
theorem solve_readable_roundtrip_witness :
    ∃ r, ("0", r) ∈ rtSolution.readable_routes ∧
      r.length = (rtVehicle.type.filter (fun t => t != "w")).length :=
  solve_readable_roundtrip (.ok rtBody) rtSolution rtBody (by decide)
    "0" rtVehicle (by decide) (by decide)

theorem solvePre_no_key (input : SolverInput) :
    solvePre "" "" input =
      .preError "Error in CuOpt solver: No API key provided for NVIDIA CuOpt" := by
  simp [solvePre]

/-- C6: with no API key configured (neither in config nor in the
environment), the Solver Gateway returns an `{error}` result whose message
contains "No API key provided" and performs no HTTP request (the pre-HTTP
phase never reaches the POST decision). -/
theorem solve_fn_missing_api_key (input : SolverInput) (http : HttpOutcome) :
    solve_fn "" "" input http =
      .failure "Error in CuOpt solver: No API key provided for NVIDIA CuOpt" ∧
    (∀ p, solvePre "" "" input ≠ .request p) ∧
    strContains "Error in CuOpt solver: No API key provided for NVIDIA CuOpt"
      "No API key provided" = true := by
  refine ⟨?_, ?_, by decide⟩
  · simp [solve_fn, solvePre_no_key]
  · intro p hp
    rw [solvePre_no_key] at hp
    cases hp

theorem solvePre_with_key (cfgKey envKey : String) (input : SolverInput)
    (hk : cfgKey ≠ "" ∨ envKey ≠ "") (msg : String)
    (herr : (effectiveInput input).error = some msg) :
    solvePre cfgKey envKey input = .preError msg := by
  by_cases hc : cfgKey = ""
  · have he : envKey ≠ "" := by
      rcases hk with h | h
      · exact absurd hc h
      · exact h
    simp [solvePre, hc, he, herr]
  · simp [solvePre, hc, herr]

/-- C10: in the Solver Gateway the API-key check precedes the upstream-error
passthrough. For every input carrying an `{error}` key from an earlier
stage: with an API key configured the gateway returns that upstream error
unchanged and never reaches the HTTP POST; with no API key configured it
returns the missing-API-key error instead, masking the upstream message. -/
theorem solve_fn_key_check_precedes_passthrough (input : SolverInput)
    (msg : String) (cfgKey envKey : String) (http : HttpOutcome)
    (herr : (effectiveInput input).error = some msg) :
    ((cfgKey ≠ "" ∨ envKey ≠ "") →
      (solve_fn cfgKey envKey input http = .failure msg ∧
       ∀ p, solvePre cfgKey envKey input ≠ .request p)) ∧
    solve_fn "" "" input http =
      .failure "Error in CuOpt solver: No API key provided for NVIDIA CuOpt" := by
  constructor
  · intro hk
    have hpre := solvePre_with_key cfgKey envKey input hk msg herr
    constructor
    · simp [solve_fn, hpre]
    · intro p hp
      rw [hpre] at hp
      cases hp
  · simp [solve_fn, solvePre_no_key]

/-- Concrete gateway input used to witness C10: an upstream error dict. -/
def upstreamErrorInput : SolverInput :=
  { cuopt_input := none,
    base := { error := some "upstream failure", data := none } }

/-- Witness for C10 at `upstreamErrorInput` with a configured key. -/
theorem solve_fn_key_check_precedes_passthrough_witness :
    (("k" ≠ "" ∨ "" ≠ "") →
      (solve_fn "k" "" upstreamErrorInput (.httpError "never") =
        .failure "upstream failure" ∧
       ∀ p, solvePre "k" "" upstreamErrorInput ≠ .request p)) ∧
    solve_fn "" "" upstreamErrorInput (.httpError "never") =
      .failure "Error in CuOpt solver: No API key provided for NVIDIA CuOpt" :=
  solve_fn_key_check_precedes_passthrough upstreamErrorInput
    "upstream failure" "k" "" (.httpError "never") rfl

/-- The result dict of `process_query` in `cuOptIQAgent_function.py`
(`query_type`, `solution`, `errors`; logs and the visualization timestamp
carry no claim content). -/
structure RunResult where
  query_type : String
  solution : Option Solution
  errors : List String
  deriving Repr, DecidableEq

/-- `process_query` of `cuOptIQAgent_function.py`: run the four stages
strictly sequentially, each stage's full output being the next stage's full
input; record a solver `{error}` into `state.errors`; the visualization step
afterwards can only append further errors (`create_visualizations` appends
on failure and never removes), modelled by the `vizErrors` suffix. The
state's `query_type` keeps its default, which the source never updates. -/
def process_query (cfgKey envKey : String) (a : Analysis)
    (load : Except String (List Order)) (http : HttpOutcome)
    (vizErrors : List String) : RunResult :=
  let modified := modify_data_fn a load
  let cuoptInput := prepare_fn modified
  let solved := solve_fn cfgKey envKey { cuopt_input := none, base := cuoptInput } http
  match solved with
  | .success sol _ =>
    { query_type := "route_optimization", solution := some sol, errors := vizErrors }
  | .failure msg =>
    { query_type := "route_optimization", solution := none, errors := msg :: vizErrors }

/-- C4: whenever the Data Modifier hits an exception during load/transform it
yields a single `{error}` result with no order set, and that error
short-circuits the rest of the pipeline: the Problem Builder produces no
payload (only an error), and the Solver Gateway never reaches the HTTP POST
and never produces a solution, whatever the key configuration. -/
theorem modify_data_fn_error_short_circuits (a : Analysis) (e : String)
    (cfgKey envKey : String) (http : HttpOutcome) :
    (modify_data_fn a (.error e)).error = some ("Data modification failed: " ++ e) ∧
    (modify_data_fn a (.error e)).transport_data = none ∧
    (prepare_fn (modify_data_fn a (.error e))).data = none ∧
    (prepare_fn (modify_data_fn a (.error e))).error =
      some "cuOpt preparation failed: Transport data is missing or empty" ∧
    (∀ p, solvePre cfgKey envKey
      { cuopt_input := none, base := prepare_fn (modify_data_fn a (.error e)) } ≠
        .request p) ∧
    (∀ s raw, solve_fn cfgKey envKey
      { cuopt_input := none, base := prepare_fn (modify_data_fn a (.error e)) } http ≠
        .success s raw) := by
  refine ⟨rfl, rfl, rfl, rfl, ?_, ?_⟩
  · intro p hp
    by_cases hc : cfgKey = "" <;> by_cases he : envKey = "" <;>
      simp [solvePre, hc, he, effectiveInput, modify_data_fn, prepare_fn] at hp
  · intro s raw hs
    by_cases hc : cfgKey = "" <;> by_cases he : envKey = "" <;>
      simp [solve_fn, solvePre, hc, he, effectiveInput, modify_data_fn, prepare_fn] at hs

/-- A ChangeRequest with every area absent (e.g. parsed from minimal LLM
output), used for concrete pipeline runs. -/
def emptyAnalysis : Analysis :=
  { query_type := none, transport_data_changes := none, fleet_changes := none,
    new_orders := none, required_analyses := none }

/-- Counterexample to C5 as stated: with an empty order set reaching the
Problem Builder but no API key configured, the builder does produce the
"missing or empty" error, yet the Orchestrator's final errors list holds
only the masking missing-API-key error and not the builder's message. -/
theorem empty_orders_error_not_in_final_errors :
    (prepare_fn (modify_data_fn emptyAnalysis (.ok []))).error =
      some "cuOpt preparation failed: Transport data is missing or empty" ∧
    (process_query "" "" emptyAnalysis (.ok []) (.httpError "unreachable") []).errors =
      ["Error in CuOpt solver: No API key provided for NVIDIA CuOpt"] ∧
    ¬ "cuOpt preparation failed: Transport data is missing or empty" ∈
      (process_query "" "" emptyAnalysis (.ok []) (.httpError "unreachable") []).errors := by
  refine ⟨rfl, rfl, ?_⟩
  intro hmem
  simp [process_query, solve_fn, solvePre, effectiveInput, modify_data_fn, prepare_fn,
    emptyAnalysis] at hmem

/-- C5 (amended): when an empty order set reaches the Problem Builder it
returns an `{error}` whose message mentions the transport data is missing or
empty, and — provided an API key is configured in config or environment —
the Orchestrator's final errors list contains that exact message. -/
theorem empty_orders_error_propagates (a : Analysis)
    (load : Except String (List Order)) (cfgKey envKey : String)
    (http : HttpOutcome) (vizErrors : List String)
    (hempty : (modify_data_fn a load).transport_data = some ([] : List Order))
    (hkey : cfgKey ≠ "" ∨ envKey ≠ "") :
    (prepare_fn (modify_data_fn a load)).error =
      some "cuOpt preparation failed: Transport data is missing or empty" ∧
    strContains "cuOpt preparation failed: Transport data is missing or empty"
      "missing or empty" = true ∧
    "cuOpt preparation failed: Transport data is missing or empty" ∈
      (process_query cfgKey envKey a load http vizErrors).errors := by
  have hprep : prepare_fn (modify_data_fn a load) =
      { error := some "cuOpt preparation failed: Transport data is missing or empty",
        data := none } := by
    simp [prepare_fn, hempty]
  have hpre := solvePre_with_key cfgKey envKey
    { cuopt_input := none, base := prepare_fn (modify_data_fn a load) } hkey
    "cuOpt preparation failed: Transport data is missing or empty"
    (by simp [effectiveInput, hprep])
  refine ⟨by rw [hprep], by decide, ?_⟩
  simp only [process_query, solve_fn, hpre]
  exact List.mem_cons_self _ _

/-- Witness for the amended C5 at a concrete run with a configured key. -/
theorem empty_orders_error_propagates_witness :
    (prepare_fn (modify_data_fn emptyAnalysis (.ok []))).error =
      some "cuOpt preparation failed: Transport data is missing or empty" ∧
    strContains "cuOpt preparation failed: Transport data is missing or empty"
      "missing or empty" = true ∧
    "cuOpt preparation failed: Transport data is missing or empty" ∈
      (process_query "k" "" emptyAnalysis (.ok []) (.httpError "unreachable") []).errors :=
  empty_orders_error_propagates emptyAnalysis (.ok []) "k" ""
    (.httpError "unreachable") [] rfl (Or.inl (by decide))
